import Mathlib

/-!
Shallow embedding of the GiftStick artifact acquisition-and-upload pipeline
(auto_forensicate/recipes/base.py, auto_forensicate/recipes/disk.py,
auto_forensicate/uploader.py, auto_forensicate/auto_acquire.py), together
with theorems settling the frozen claims about it.

Streams and subprocesses are modelled as explicit state: a stream handle is a
natural number minted by a counter (two handles are the same Python object iff
they carry the same number), and a dcfldd child process is a record of the
observables the code reads back from it (unread bytes left in its stdout pipe,
its return code, its captured stderr).
-/

namespace GiftStick

/-! ## Artifact stream state machines (recipes/base.py, recipes/disk.py) -/

/-- Observable behaviour of a spawned dcfldd child process, as read back by
`DiskArtifact.CloseStream`: how many bytes are still unread in its stdout pipe
at close time, the return code `wait()` will report, and the text on its
stderr pipe. -/
structure DDProcess where
  unreadBytes : Nat
  returncode : Int
  stderr : String
  deriving DecidableEq, Repr

/-- State of a `BaseArtifact` (recipes/base.py): the `_stream` attribute
(`none` until the first `OpenStream`), plus a counter of how many times the
side-effecting `_GetStream` has run (each run mints a fresh stream object,
identified by the counter value). -/
structure BaseArtifactState where
  stream : Option Nat
  getStreamRuns : Nat
  deriving DecidableEq, Repr

/-- A freshly constructed artifact: `self._stream = None`. -/
def initBaseArtifact : BaseArtifactState :=
  { stream := none, getStreamRuns := 0 }

/-- Errors raised by the stream lifecycle methods. -/
inductive StreamError where
  /-- base.py line 78: IOError("Illegal call to CloseStream() before OpenStream()"). -/
  | closeBeforeOpen
  /-- disk.py line 105: IOError("Disk is already opened"), raised by a second
  direct call to `DiskArtifact._GetStream`. -/
  | diskAlreadyOpened
  deriving DecidableEq, Repr

/-- `BaseArtifact.OpenStream` (base.py lines 80-91): if `self._stream` is not
set, run `_GetStream` and remember the result; return `self._stream`. -/
def OpenStream (st : BaseArtifactState) : Nat × BaseArtifactState :=
  match st.stream with
  | some s => (s, st)
  | none =>
      (st.getStreamRuns,
       { stream := some st.getStreamRuns, getStreamRuns := st.getStreamRuns + 1 })

/-- `BaseArtifact.CloseStream` (base.py lines 68-78): close `self._stream` if
set, raise IOError otherwise. -/
def CloseStream (st : BaseArtifactState) : Except StreamError BaseArtifactState :=
  match st.stream with
  | none => Except.error StreamError.closeBeforeOpen
  | some _ => Except.ok st

/-- State of a `DiskArtifact` (recipes/disk.py): the base-class `_stream`
attribute and `_GetStream` counter, the `use_dcfldd` flag, the `_ddprocess`
attribute (`none` until a dcfldd child is spawned) and a count of dcfldd
spawns (`subprocess.Popen` invocations). -/
structure DiskArtifactState where
  useDcfldd : Bool
  ddprocess : Option DDProcess
  stream : Option Nat
  getStreamRuns : Nat
  processStarts : Nat
  deriving DecidableEq, Repr

/-- A freshly constructed `DiskArtifact`: `self._ddprocess = None`, no stream. -/
def initDiskArtifact (useDcfldd : Bool) : DiskArtifactState :=
  { useDcfldd := useDcfldd, ddprocess := none, stream := none,
    getStreamRuns := 0, processStarts := 0 }

/-- `DiskArtifact._GetStream` (disk.py lines 89-108), parameterized by the
behaviour `p` the spawned dcfldd child will exhibit. With `use_dcfldd`, spawn
the child on first call (returning its stdout pipe) and raise IOError on a
second direct call; without it, `open(self._path, "rb")` — a fresh file
object each call, `_ddprocess` untouched. -/
def DiskGetStream (p : DDProcess) (st : DiskArtifactState) :
    Except StreamError (Nat × DiskArtifactState) :=
  if st.useDcfldd then
    match st.ddprocess with
    | none =>
        Except.ok (st.getStreamRuns,
          { st with ddprocess := some p,
                    getStreamRuns := st.getStreamRuns + 1,
                    processStarts := st.processStarts + 1 })
    | some _ => Except.error StreamError.diskAlreadyOpened
  else
    Except.ok (st.getStreamRuns, { st with getStreamRuns := st.getStreamRuns + 1 })

/-- `BaseArtifact.OpenStream` as inherited by `DiskArtifact`: run
`DiskGetStream` only when `self._stream` is not yet set. -/
def DiskOpenStream (p : DDProcess) (st : DiskArtifactState) :
    Except StreamError (Nat × DiskArtifactState) :=
  match st.stream with
  | some s => Except.ok (s, st)
  | none =>
      match DiskGetStream p st with
      | Except.error e => Except.error e
      | Except.ok (h, st') => Except.ok (h, { st' with stream := some h })

/-- Result of `DiskArtifact.CloseStream` (disk.py lines 110-139). -/
inductive DiskCloseOutcome where
  /-- disk.py line 121: IOError("Illegal call to CloseStream() before GetStream()"). -/
  | errCloseBeforeOpen
  /-- disk.py lines 125-130: stdout still had data; the child is terminated and
  a RecipeException is raised. -/
  | errEarlyCloseTerminated
  /-- disk.py lines 135-138: RecipeException("Command dcfldd returned non-zero
  exit status ..."), wrapping the captured stderr. -/
  | errDDExit (code : Int) (stderr : String)
  /-- Normal return: the captured stderr text is returned for the report. -/
  | ok (stderr : String)
  deriving DecidableEq, Repr

/-- `DiskArtifact.CloseStream` (disk.py lines 110-139): if `self._ddprocess`
is not set, raise IOError; otherwise probe stdout for one more byte (early
close check), then wait for the child and raise iff `returncode > 0`. -/
def DiskCloseStream (st : DiskArtifactState) : DiskCloseOutcome :=
  match st.ddprocess with
  | none => DiskCloseOutcome.errCloseBeforeOpen
  | some p =>
      if 0 < p.unreadBytes then DiskCloseOutcome.errEarlyCloseTerminated
      else if 0 < p.returncode then DiskCloseOutcome.errDDExit p.returncode p.stderr
      else DiskCloseOutcome.ok p.stderr

/-- Whether `DiskArtifact.CloseStream` invokes `self._ddprocess.terminate()`:
the source calls it exactly in the unread-data branch (disk.py line 128). -/
def DiskCloseTerminatesChild (st : DiskArtifactState) : Bool :=
  match st.ddprocess with
  | none => false
  | some p => decide (0 < p.unreadBytes)

/-! ## Error taxonomy and the driver's final report (auto_acquire.py) -/

/-- An error collected in `AutoForensicate._errors`. The module
`auto_forensicate/errors.py` is not under src/; modelled from the spec: the
only retryable class is `errors.RetryableError` ("connection dropped
mid-upload"), everything else (RecipeException, IOError, ...) is not. -/
inductive RunError where
  | retryable (msg : String)
  | other (msg : String)
  deriving DecidableEq, Repr

/-- The `isinstance(e, errors.RetryableError)` test of auto_acquire.py
line 595. -/
def IsRetryableError : RunError → Bool
  | RunError.retryable _ => true
  | RunError.other _ => false

/-- Classification of a `DiskCloseStream` failure for the driver: a
RecipeException or IOError is never an `errors.RetryableError`. -/
def DiskCloseError : DiskCloseOutcome → Option RunError
  | DiskCloseOutcome.errCloseBeforeOpen =>
      some (RunError.other "IOError: Illegal call to CloseStream() before GetStream()")
  | DiskCloseOutcome.errEarlyCloseTerminated =>
      some (RunError.other "RecipeException: CloseStream() called but stdout still had data")
  | DiskCloseOutcome.errDDExit _ stderr =>
      some (RunError.other ("RecipeException: Command dcfldd returned non-zero exit status, with error: " ++ stderr))
  | DiskCloseOutcome.ok _ => none

/-- The colored status line printed at the end of `AutoForensicate.Main`
(auto_acquire.py lines 591-614). -/
inductive FinalMessage where
  /-- Red: "There was a problem with the upload, please re-run the script." -/
  | retryMsg
  /-- Red: "... please keep the system running and contact the security person ...". -/
  | escalateMsg
  /-- Green: "Everything has completed successfully ...". -/
  | successMsg
  deriving DecidableEq, Repr

/-- End of `AutoForensicate.Main` (auto_acquire.py lines 591-614): if any
error was collected, print the retry message when some collected error is an
`errors.RetryableError`, the escalate message otherwise; with no errors print
the success message. -/
def MainFinalMessage (errs : List RunError) : FinalMessage :=
  if ¬ errs.isEmpty then
    (if errs.any IsRetryableError then FinalMessage.retryMsg
     else FinalMessage.escalateMsg)
  else FinalMessage.successMsg

/-- Process exit status after `AutoForensicate.Main` returns: auto_acquire.py
calls `app.Main(args=sys.argv[1:])` at module level and `Main` ends by
printing the status line — there is no `sys.exit` call anywhere in the module
and `Main` returns `None` on every path, so the interpreter exits with
status 0 whatever `self._errors` holds. -/
def MainExitStatus (errs : List RunError) : Nat := 0

/-! ## DiskRecipe.GetArtifacts (recipes/disk.py lines 419-470) and the
sequential driver (auto_acquire.py lines 516-537) -/

/-- The platform probe `sys.platform`, as used by `BaseRecipe`. -/
inductive Platform where
  | linux
  | darwin
  deriving DecidableEq, Repr

/-- An artifact appended by `DiskRecipe.GetArtifacts`, identified by its kind
and the disk it belongs to. -/
inductive ArtifactItem where
  /-- The whole-system inventory StringArtifact ("Disks/lsblk.txt" on Linux,
  "Disks/diskutil.txt" on Mac), appended first. -/
  | listDisks
  /-- The per-disk udevadm property StringArtifact
  ("Disks/NAME.udevadm.txt"). -/
  | diskInfo (diskName : String)
  /-- The DiskArtifact itself ("Disks/NAME.image"). -/
  | diskImage (diskName : String)
  /-- The companion hash-log FileArtifact ("Disks/NAME.hash"), written by
  dcfldd when imaging completes. -/
  | hashlog (diskName : String)
  deriving DecidableEq, Repr

/-- `DiskRecipe._GetDiskInfoArtifact` (disk.py lines 400-417): returns None
on darwin (so nothing is appended), a udevadm StringArtifact on Linux. -/
def DiskInfoArtifact (platform : Platform) (diskName : String) : List ArtifactItem :=
  match platform with
  | Platform.darwin => []
  | Platform.linux => [ArtifactItem.diskInfo diskName]

/-- The body of the `for disk in disks_to_collect` loop of
`DiskRecipe.GetArtifacts` (disk.py lines 454-468): append the disk-info
artifact when there is one, then the DiskArtifact, then — only when dcfldd is
in use — the hash-log FileArtifact. -/
def PerDiskGroup (platform : Platform) (useDcfldd : Bool) (diskName : String) :
    List ArtifactItem :=
  DiskInfoArtifact platform diskName
  ++ [ArtifactItem.diskImage diskName]
  ++ (if useDcfldd then [ArtifactItem.hashlog diskName] else [])

/-- `DiskRecipe.GetArtifacts` (disk.py lines 419-470), parameterized by the
already-selected disks (the selection itself is interactive UI or lsblk
filtering): the inventory artifact first, then the per-disk groups in
selection order. -/
def GetArtifacts (platform : Platform) (useDcfldd : Bool)
    (disksToCollect : List String) : List ArtifactItem :=
  ArtifactItem.listDisks :: disksToCollect.bind (PerDiskGroup platform useDcfldd)

/-- An observable step of the sequential upload loop. -/
inductive DriverEvent where
  /-- `artifact.OpenStream()` in `BaseUploader.UploadArtifact`: the first read
  of the artifact data. -/
  | opened (a : ArtifactItem)
  /-- `artifact.CloseStream()`: the stream has been fully consumed by
  `_UploadStream` and, for disk artifacts, the imaging subprocess has been
  waited for. -/
  | closed (a : ArtifactItem)
  deriving DecidableEq, Repr

/-- What one `uploader.UploadArtifact(artifact)` call does to the artifact
(uploader.py lines 105-110), given whether its `_UploadStream` call succeeds:
the stream is always opened first, as the argument of `_UploadStream`
(line 107); when `_UploadStream` returns, `artifact.CloseStream()` runs
(line 109), draining the stream and waiting for the child process; when
`_UploadStream` raises (e.g. a connection break surfacing as
errors.RetryableError), line 109 is never reached — the stream is left
unclosed and the exception propagates to the driver. -/
def ArtifactUploadEvents (streamOk : ArtifactItem → Bool) (a : ArtifactItem) :
    List DriverEvent :=
  if streamOk a then [DriverEvent.opened a, DriverEvent.closed a]
  else [DriverEvent.opened a]

/-- `AutoForensicate._UploadArtifacts` (auto_acquire.py lines 516-537):
artifacts are uploaded sequentially, one at a time, in list order;
`_UploadArtifact` catches every exception (lines 510-514) and the loop
continues, so the next artifact is opened even when the previous upload
failed with its stream unclosed. -/
def UploadArtifactsTrace (streamOk : ArtifactItem → Bool)
    (arts : List ArtifactItem) : List DriverEvent :=
  arts.bind (ArtifactUploadEvents streamOk)

/-! ## BaseUploader stamp protocol (uploader.py lines 34-110) and the
driver's per-artifact error containment (auto_acquire.py lines 498-514) -/

/-- The `BaseStamp` namedtuple (stamp/manager.py): identifier and start
time. -/
structure ForensicsStamp where
  identifier : String
  startTime : String
  deriving DecidableEq, Repr

/-- `BaseStampManager.BasePathElements` (stamp/manager.py): start time then
identifier. -/
def BasePathElements (stamp : ForensicsStamp) : List String :=
  [stamp.startTime, stamp.identifier]

/-- `BaseUploader._MakeRemotePath` (uploader.py lines 62-74):
join of the stamp base path elements and the destination. -/
def MakeRemotePath (stamp : ForensicsStamp) (destination : String) : String :=
  String.intercalate "/" (BasePathElements stamp ++ [destination])

/-- The `_stamp_uploaded` flag of a `BaseUploader` instance. -/
structure UploaderState where
  stampUploaded : Bool
  deriving DecidableEq, Repr

/-- A freshly constructed uploader: `self._stamp_uploaded = False`. -/
def initUploader : UploaderState :=
  { stampUploaded := false }

/-- A write performed through `_UploadStream`. -/
inductive UploadWrite where
  /-- The serialized stamp written to "stamp.json". -/
  | stampWrite
  /-- The artifact bytes written to their remote path. -/
  | artifactWrite (remotePath : String)
  deriving DecidableEq, Repr

/-- An exception escaping `UploadArtifact`. -/
inductive UploadFailure where
  /-- `_UploadStream` raised while writing "stamp.json" (e.g. no write
  permission on the destination). -/
  | stampUploadFailed
  deriving DecidableEq, Repr

/-- `BaseUploader._UploadStamp` (uploader.py lines 52-60), parameterized by
whether the underlying `_UploadStream` call raises: on success the stamp
object is written and `self._stamp_uploaded` is set; on failure the exception
propagates and the flag stays unset (the source's TODO notes that the
failure does not stop execution). -/
def UploadStamp (stampWriteFails : Bool) (st : UploaderState) :
    Except UploadFailure (UploaderState × List UploadWrite) :=
  if stampWriteFails then Except.error UploadFailure.stampUploadFailed
  else Except.ok ({ stampUploaded := true }, [UploadWrite.stampWrite])

/-- `BaseUploader.UploadArtifact` (uploader.py lines 89-110): upload the
stamp first if `self._stamp_uploaded` is still false, then stream the
artifact bytes to its remote path. Returns the result, the new uploader
state, and the writes performed in order. -/
def UploadArtifact (stampWriteFails : Bool) (stamp : ForensicsStamp)
    (st : UploaderState) (artifactRemotePath : String) :
    Except UploadFailure String × UploaderState × List UploadWrite :=
  match (if st.stampUploaded then Except.ok (st, []) else UploadStamp stampWriteFails st) with
  | Except.error e => (Except.error e, st, [])
  | Except.ok (st1, writes) =>
      let rpath := MakeRemotePath stamp artifactRemotePath
      (Except.ok rpath, st1, writes ++ [UploadWrite.artifactWrite rpath])

/-- The driver's upload loop, `AutoForensicate._UploadArtifacts` calling
`_UploadArtifact` per artifact (auto_acquire.py lines 498-537): every
exception from `uploader.UploadArtifact` — the stamp failure included — is
caught, appended to `self._errors`, and the loop continues with the next
artifact. Returns the final uploader state, the writes performed, and the
collected errors. -/
def RunUploads (stampWriteFails : Bool) (stamp : ForensicsStamp)
    (st : UploaderState) (arts : List String) :
    UploaderState × List UploadWrite × List UploadFailure :=
  match arts with
  | [] => (st, [], [])
  | a :: rest =>
      match UploadArtifact stampWriteFails stamp st a with
      | (r, st1, writes) =>
          match RunUploads stampWriteFails stamp st1 rest with
          | (stFinal, trace, errs) =>
              (stFinal, writes ++ trace,
               (match r with
                | Except.ok _ => []
                | Except.error e => [e]) ++ errs)

/-! ## Linux disk classification (recipes/disk.py lines 247-276) -/

/-- `LinuxDiskArtifact._GetUdevadmProperty` (disk.py lines 247-258): a lookup
in the udevadm key-value metadata, `none` when the property is not set. -/
def GetUdevadmProperty (props : List (String × String)) (prop : String) : Option String :=
  props.lookup prop

/-- `LinuxDiskArtifact._IsFloppy` (disk.py lines 269-272): the MAJOR device
number property equals "2". -/
def LinuxIsFloppy (props : List (String × String)) : Bool :=
  GetUdevadmProperty props "MAJOR" == some "2"

/-- `LinuxDiskArtifact._IsUsb` (disk.py lines 274-276): the ID_BUS property
equals "usb". -/
def LinuxIsUsb (props : List (String × String)) : Bool :=
  GetUdevadmProperty props "ID_BUS" == some "usb"

/-- `LinuxDiskArtifact.ProbablyADisk` (disk.py lines 260-267): reject
floppies, then reject USB devices, accept everything else. -/
def LinuxProbablyADisk (props : List (String × String)) : Bool :=
  if LinuxIsFloppy props then false
  else if LinuxIsUsb props then false
  else true

/-- Which branch of `LinuxDiskArtifact.ProbablyADisk` decides: same branch
structure as the source, recording the first test that fires (the floppy test
is on line 262, before the USB test on line 264). -/
inductive DiskRejectionReason where
  | rejectedFloppy
  | rejectedUsb
  | accepted
  deriving DecidableEq, Repr

/-- Decision trace of `LinuxDiskArtifact.ProbablyADisk`: the branch taken. -/
def LinuxProbablyADiskReason (props : List (String × String)) : DiskRejectionReason :=
  if LinuxIsFloppy props then DiskRejectionReason.rejectedFloppy
  else if LinuxIsUsb props then DiskRejectionReason.rejectedUsb
  else DiskRejectionReason.accepted

/-! ## Disk-slice splitting (uploader.py: LocalSplitterCopier.UploadArtifact
lines 194-258 and GCSSplitterUploader.UploadArtifact lines 393-465, which
compute identical offsets and lengths) -/

/-- An exception escaping the splitter upload of a DiskArtifact. -/
inductive SplitFailure where
  /-- uploader.py lines 219-221: errors.BadConfigOption when `slices < 1`. -/
  | badConfigOption
  /-- Python ValueError("range() arg 3 must not be zero"), raised by
  `range(0, artifact.size, slice_size)` when the computed `slice_size` is 0. -/
  | rangeStepZero
  deriving DecidableEq, Repr

/-- The page-aligned slice size (uploader.py lines 423-429):
`number_of_pages = int(artifact.size / self._slices / mmap.PAGESIZE)` then
`slice_size = number_of_pages * mmap.PAGESIZE`. The two Python float
divisions truncated by `int()` are modelled as natural floor divisions. -/
def SliceSize (size slices pagesize : Nat) : Nat :=
  size / slices / pagesize * pagesize

/-- Python `range(0, stop, step)` for `step > 0`: the multiples of `step`
below `stop`, of which there are `ceil(stop / step)`. -/
def pyRangeZero (stop step : Nat) : List Nat :=
  List.range' 0 ((stop + step - 1) / step) step

/-- The slice computation of the splitter uploaders (uploader.py lines
417-462 and 215-257): for each seek position produced by
`range(0, artifact.size, slice_size)`, a slice of `slice_size` bytes, except
that a slice reaching past the end is truncated to `artifact.size -
seek_position`. Returns the (offset, length) pairs in upload (index) order;
`_skip_exist` is initialized to False and never set, so no slice is
skipped. -/
def SplitDiskUpload (size slices pagesize : Nat) :
    Except SplitFailure (List (Nat × Nat)) :=
  if slices < 1 then Except.error SplitFailure.badConfigOption
  else if SliceSize size slices pagesize = 0 then Except.error SplitFailure.rangeStepZero
  else Except.ok ((pyRangeZero size (SliceSize size slices pagesize)).map
    (fun seek =>
      (seek,
       if size < seek + SliceSize size slices pagesize then size - seek
       else SliceSize size slices pagesize)))

/-! ## ProcessOutputArtifact (recipes/base.py lines 182-232) -/

/-- A Python runtime error escaping `_RunCommand` under Python 3. -/
inductive PyError where
  /-- TypeError("unsupported format string passed to ....__format__"). -/
  | typeError
  /-- AttributeError: str has no attribute "decode" in Python 3. -/
  | attributeError
  deriving DecidableEq, Repr

/-- A Python value handed to `str.format`. -/
inductive PyValue where
  | pyStr (s : String)
  | pyBytes (b : List Nat)
  | pyList (elems : List String)
  deriving DecidableEq, Repr

/-- Python 3 `format(value, "s")`, as invoked by a `{n:s}` placeholder: only
str supports the "s" format spec; bytes and list fall back to
`object.__format__`, which raises TypeError for any non-empty spec. -/
def pyFormatS : PyValue → Except PyError String
  | PyValue.pyStr s => Except.ok s
  | PyValue.pyBytes _ => Except.error PyError.typeError
  | PyValue.pyList _ => Except.error PyError.typeError

/-- Outcome of running the wrapped command: captured stdout and stderr bytes
and the process return code. -/
structure CommandResult where
  stdout : List Nat
  stderr : List Nat
  returncode : Int
  deriving DecidableEq, Repr

/-- `ProcessOutputArtifact._RunCommand` (base.py lines 197-220): with return
code 0 the captured stdout bytes are returned. With a non-zero return code
the source evaluates
`'Command {0:s} failed with {1:s} return code {2:d})'.format(self._command,
error.strip(), process.returncode)` — under Python 3 the `{0:s}` spec
applied to the command list raises TypeError (as would `{1:s}` on the stderr
bytes), and even if the formatting returned a str, the subsequent
`command_output.decode('utf-8', 'ignore')` on that str would raise
AttributeError; every path of the branch raises. -/
def RunCommand (command : List String) (res : CommandResult) :
    Except PyError (List Nat) :=
  if res.returncode = 0 then Except.ok res.stdout
  else
    match pyFormatS (PyValue.pyList command) with
    | Except.error e => Except.error e
    | Except.ok _ =>
        match pyFormatS (PyValue.pyBytes res.stderr) with
        | Except.error e => Except.error e
        | Except.ok _ => Except.error PyError.attributeError

/-- `ProcessOutputArtifact._GetStream` (base.py lines 222-232): run the
command once, set `self._size` to the captured byte count, buffer the bytes.
Returns the pair (size, buffered content). -/
def ProcessOutputGetStream (command : List String) (res : CommandResult) :
    Except PyError (Nat × List Nat) :=
  match RunCommand command res with
  | Except.error e => Except.error e
  | Except.ok out => Except.ok (out.length, out)

end GiftStick

namespace GiftStick

/-! ## Theorems -/

/-- Claim C5: for every artifact, calling CloseStream before any OpenStream
fails with a stream-state error, and calling OpenStream a second time returns
the same underlying stream object as the first call without re-running the
side effect; for process-backed artifacts (DiskArtifact with dcfldd) the
external process is started at most once (exactly once after an open). -/
theorem c5_close_before_open_and_idempotent_open :
    (CloseStream initBaseArtifact = Except.error StreamError.closeBeforeOpen)
    ∧ (∀ st : BaseArtifactState, OpenStream (OpenStream st).2 = OpenStream st)
    ∧ (DiskCloseStream (initDiskArtifact true) = DiskCloseOutcome.errCloseBeforeOpen)
    ∧ (∀ p : DDProcess, ∃ h st1,
        DiskOpenStream p (initDiskArtifact true) = Except.ok (h, st1)
        ∧ DiskOpenStream p st1 = Except.ok (h, st1)
        ∧ st1.processStarts = 1) := by
  refine ⟨rfl, ?_, rfl, ?_⟩
  · intro st
    cases h : st.stream <;> simp [OpenStream, h]
  · intro p
    exact ⟨0, _, rfl, rfl, rfl⟩

/-- Claim C10: a DiskArtifact constructed with use_dcfldd=False opens the raw
block device, never sets the dcfldd process handle, and its CloseStream —
which only inspects that handle — always raises the IOError claiming
CloseStream was called before the stream was opened, even right after a
successful OpenStream (reading from the stream does not touch the handle
either). -/
theorem c10_nodcfldd_close_always_ioerror :
    ∀ p : DDProcess, ∃ h st1,
      DiskOpenStream p (initDiskArtifact false) = Except.ok (h, st1)
      ∧ st1.stream = some h
      ∧ st1.ddprocess = none
      ∧ DiskCloseStream st1 = DiskCloseOutcome.errCloseBeforeOpen := by
  intro p
  exact ⟨0, _, rfl, rfl, rfl, rfl⟩

/-- Claim C4, counterexample: the claim says CloseStream (with the pipe fully
drained) raises a fatal error iff the exit code is non-zero, but the source
tests `code > 0` (disk.py line 135); a child that died on a signal reports
the non-zero Python return code -9 and CloseStream returns normally. -/
theorem c4_counterexample :
    DiskCloseStream
      { useDcfldd := true,
        ddprocess := some { unreadBytes := 0, returncode := -9, stderr := "killed" },
        stream := some 0, getStreamRuns := 1, processStarts := 1 }
      = DiskCloseOutcome.ok "killed"
    ∧ (-9 : Int) ≠ 0 := by
  exact ⟨rfl, by decide⟩

/-- Claim C4 (amended): if CloseStream is called while at least one unread
byte remains in the child's stdout pipe, the call fails with a fatal
non-retryable error and the child process is terminated; otherwise CloseStream
waits for the child and raises a fatal error wrapping the captured stderr if
and only if the return code is strictly positive (negative return codes,
reported when the child died on a signal, are not treated as errors). -/
theorem c4_close_stream_protocol (st : DiskArtifactState) (p : DDProcess)
    (hdd : st.ddprocess = some p) :
    (0 < p.unreadBytes →
      DiskCloseStream st = DiskCloseOutcome.errEarlyCloseTerminated
      ∧ DiskCloseTerminatesChild st = true
      ∧ (DiskCloseError (DiskCloseStream st)).any IsRetryableError = false
      ∧ DiskCloseError (DiskCloseStream st) ≠ none)
    ∧ (p.unreadBytes = 0 →
        ((∃ c e, DiskCloseStream st = DiskCloseOutcome.errDDExit c e) ↔ 0 < p.returncode))
    ∧ (p.unreadBytes = 0 → ¬ 0 < p.returncode →
        DiskCloseStream st = DiskCloseOutcome.ok p.stderr) := by
  refine ⟨?_, ?_, ?_⟩
  · intro hunread
    refine ⟨?_, ?_, ?_, ?_⟩ <;>
      simp [DiskCloseStream, DiskCloseTerminatesChild, DiskCloseError,
        IsRetryableError, hdd, hunread]
  · intro hzero
    constructor
    · rintro ⟨c, e, hc⟩
      by_contra hneg
      simp [DiskCloseStream, hdd, hzero, hneg] at hc
    · intro hpos
      exact ⟨p.returncode, p.stderr, by simp [DiskCloseStream, hdd, hzero, hpos]⟩
  · intro hzero hneg
    simp [DiskCloseStream, hdd, hzero, hneg]

/-- Witness for c4_close_stream_protocol at concrete states: an early close
with 3 unread bytes is a terminated protocol violation, and a drained pipe
with return code 0 closes cleanly. -/
theorem c4_close_stream_protocol_witness :
    DiskCloseStream
      { useDcfldd := true,
        ddprocess := some { unreadBytes := 3, returncode := 0, stderr := "log" },
        stream := some 0, getStreamRuns := 1, processStarts := 1 }
      = DiskCloseOutcome.errEarlyCloseTerminated
    ∧ DiskCloseStream
        { useDcfldd := true,
          ddprocess := some { unreadBytes := 0, returncode := 0, stderr := "log" },
          stream := some 0, getStreamRuns := 1, processStarts := 1 }
        = DiskCloseOutcome.ok "log" := by
  constructor
  · exact ((c4_close_stream_protocol _ { unreadBytes := 3, returncode := 0, stderr := "log" }
      rfl).1 (by decide)).1
  · exact (c4_close_stream_protocol _ { unreadBytes := 0, returncode := 0, stderr := "log" }
      rfl).2.2 rfl (by decide)

/-- Claim C6: for every Linux device record, ProbablyADisk returns false when
the MAJOR property equals "2" (floppy) regardless of bus — and the floppy
test decides before the USB test ever fires; otherwise it returns false when
the device bus is USB; otherwise it returns true. -/
theorem c6_probably_a_disk_truth_table (props : List (String × String)) :
    (LinuxIsFloppy props = true →
      LinuxProbablyADisk props = false
      ∧ LinuxProbablyADiskReason props = DiskRejectionReason.rejectedFloppy)
    ∧ (LinuxIsFloppy props = false → LinuxIsUsb props = true →
        LinuxProbablyADisk props = false
        ∧ LinuxProbablyADiskReason props = DiskRejectionReason.rejectedUsb)
    ∧ (LinuxIsFloppy props = false → LinuxIsUsb props = false →
        LinuxProbablyADisk props = true) := by
  refine ⟨?_, ?_, ?_⟩
  · intro hf
    exact ⟨by simp [LinuxProbablyADisk, hf], by simp [LinuxProbablyADiskReason, hf]⟩
  · intro hf hu
    exact ⟨by simp [LinuxProbablyADisk, hf, hu],
           by simp [LinuxProbablyADiskReason, hf, hu]⟩
  · intro hf hu
    simp [LinuxProbablyADisk, hf, hu]

/-- Witness for c6_probably_a_disk_truth_table: a floppy on the USB bus is
rejected for the floppy reason, a plain USB disk is rejected for the USB
reason, and an internal SATA disk is accepted. -/
theorem c6_probably_a_disk_truth_table_witness :
    LinuxProbablyADisk [("MAJOR", "2"), ("ID_BUS", "usb")] = false
    ∧ LinuxProbablyADiskReason [("MAJOR", "2"), ("ID_BUS", "usb")]
        = DiskRejectionReason.rejectedFloppy
    ∧ LinuxProbablyADisk [("MAJOR", "8"), ("ID_BUS", "usb")] = false
    ∧ LinuxProbablyADisk [("MAJOR", "8"), ("ID_BUS", "ata")] = true := by
  refine ⟨?_, ?_, ?_, ?_⟩
  · exact ((c6_probably_a_disk_truth_table [("MAJOR", "2"), ("ID_BUS", "usb")]).1
      (by decide)).1
  · exact ((c6_probably_a_disk_truth_table [("MAJOR", "2"), ("ID_BUS", "usb")]).1
      (by decide)).2
  · exact ((c6_probably_a_disk_truth_table [("MAJOR", "8"), ("ID_BUS", "usb")]).2.1
      (by decide) (by decide)).1
  · exact (c6_probably_a_disk_truth_table [("MAJOR", "8"), ("ID_BUS", "ata")]).2.2
      (by decide) (by decide)

/-- Helper: the element sitting right after a prefix is found at the index
equal to the prefix length. -/
theorem get_at_append_length {α : Type} (s : List α) (a : α) (t : List α) :
    (s ++ a :: t).get? s.length = some a := by
  induction s with
  | nil => rfl
  | cons x xs ih => simpa using ih

/-- Claim C1, counterexample: "the image stream is fully consumed (and the
imaging subprocess has exited) before its hash-log artifact is read" is not
an invariant of the program. In a run where the image upload raises inside
its upload-stream call (e.g. a mid-transfer connection break), uploader.py
line 109 is skipped so the image stream is never closed, yet the driver
catches the exception per artifact and continues: in the resulting trace the
hash-log artifact is opened while no close of the image ever occurs. -/
theorem c1_counterexample :
    DriverEvent.opened (ArtifactItem.hashlog "sda")
      ∈ UploadArtifactsTrace
          (fun a => !(a == ArtifactItem.diskImage "sda"))
          (GetArtifacts Platform.linux true ["sda"])
    ∧ DriverEvent.closed (ArtifactItem.diskImage "sda")
      ∉ UploadArtifactsTrace
          (fun a => !(a == ArtifactItem.diskImage "sda"))
          (GetArtifacts Platform.linux true ["sda"]) := by
  decide

/-- Helper: the two elements sitting right after a prefix are found at the
indices given by the prefix length and its successor. -/
theorem get_pair_at_append {α : Type} (s : List α) (a b : α) (t : List α) :
    (s ++ a :: b :: t).get? s.length = some a
    ∧ (s ++ a :: b :: t).get? (s.length + 1) = some b := by
  constructor
  · exact get_at_append_length s a (b :: t)
  · have h2 := get_at_append_length (s ++ [a]) b t
    have hassoc : (s ++ [a]) ++ b :: t = s ++ a :: b :: t := by
      rw [List.append_assoc]
      rfl
    have hlen : (s ++ [a]).length = s.length + 1 := by
      rw [List.length_append]
      rfl
    rw [hassoc, hlen] at h2
    exact h2

/-- Claim C1 (amended): with dcfldd imaging enabled, DiskRecipe.GetArtifacts
places every selected disk's image artifact at a strictly earlier position
than its companion hash-log artifact, and the driver uploads artifacts
sequentially in list order; provided the image artifact's upload-stream call
succeeds — so that the driver reaches artifact.CloseStream(), which drains
the stream and waits for the imaging subprocess — the image stream is closed
before the hash-log artifact is opened in the driver trace. When the image
upload raises, the driver's per-artifact containment skips the close and
still opens the hash log (see the counterexample). -/
theorem c1_disk_image_before_hashlog (platform : Platform)
    (streamOk : ArtifactItem → Bool) (disks : List String) (d : String)
    (hmem : d ∈ disks) (hok : streamOk (ArtifactItem.diskImage d) = true) :
    ∃ i j, i < j
      ∧ (GetArtifacts platform true disks).get? i = some (ArtifactItem.diskImage d)
      ∧ (GetArtifacts platform true disks).get? j = some (ArtifactItem.hashlog d)
      ∧ ∃ k m, k < m
        ∧ (UploadArtifactsTrace streamOk (GetArtifacts platform true disks)).get? k
            = some (DriverEvent.closed (ArtifactItem.diskImage d))
        ∧ (UploadArtifactsTrace streamOk (GetArtifacts platform true disks)).get? m
            = some (DriverEvent.opened (ArtifactItem.hashlog d)) := by
  obtain ⟨u, v, huv⟩ := List.append_of_mem hmem
  subst huv
  have hsplit : GetArtifacts platform true (u ++ d :: v)
      = (ArtifactItem.listDisks ::
          (u.bind (PerDiskGroup platform true) ++ DiskInfoArtifact platform d))
        ++ ArtifactItem.diskImage d :: ArtifactItem.hashlog d ::
            v.bind (PerDiskGroup platform true) := by
    simp [GetArtifacts, PerDiskGroup, List.append_bind, List.cons_bind]
  obtain ⟨hg1, hg2⟩ := get_pair_at_append
    (ArtifactItem.listDisks ::
      (u.bind (PerDiskGroup platform true) ++ DiskInfoArtifact platform d))
    (ArtifactItem.diskImage d) (ArtifactItem.hashlog d)
    (v.bind (PerDiskGroup platform true))
  have htr : UploadArtifactsTrace streamOk (GetArtifacts platform true (u ++ d :: v))
      = ((ArtifactItem.listDisks ::
            (u.bind (PerDiskGroup platform true) ++ DiskInfoArtifact platform d)).bind
            (ArtifactUploadEvents streamOk)
          ++ [DriverEvent.opened (ArtifactItem.diskImage d)])
        ++ DriverEvent.closed (ArtifactItem.diskImage d)
          :: DriverEvent.opened (ArtifactItem.hashlog d)
          :: ((if streamOk (ArtifactItem.hashlog d) then
                [DriverEvent.closed (ArtifactItem.hashlog d)] else [])
              ++ (v.bind (PerDiskGroup platform true)).bind
                  (ArtifactUploadEvents streamOk)) := by
    rw [hsplit]
    by_cases hh : streamOk (ArtifactItem.hashlog d) <;>
      simp [UploadArtifactsTrace, ArtifactUploadEvents, List.append_bind,
        List.cons_bind, hok, hh]
  obtain ⟨ht1, ht2⟩ := get_pair_at_append
    ((ArtifactItem.listDisks ::
        (u.bind (PerDiskGroup platform true) ++ DiskInfoArtifact platform d)).bind
        (ArtifactUploadEvents streamOk)
      ++ [DriverEvent.opened (ArtifactItem.diskImage d)])
    (DriverEvent.closed (ArtifactItem.diskImage d))
    (DriverEvent.opened (ArtifactItem.hashlog d))
    ((if streamOk (ArtifactItem.hashlog d) then
        [DriverEvent.closed (ArtifactItem.hashlog d)] else [])
      ++ (v.bind (PerDiskGroup platform true)).bind (ArtifactUploadEvents streamOk))
  refine ⟨(ArtifactItem.listDisks ::
      (u.bind (PerDiskGroup platform true) ++ DiskInfoArtifact platform d)).length,
    _ + 1, Nat.lt_succ_self _, ?_, ?_,
    ((ArtifactItem.listDisks ::
        (u.bind (PerDiskGroup platform true) ++ DiskInfoArtifact platform d)).bind
        (ArtifactUploadEvents streamOk)
      ++ [DriverEvent.opened (ArtifactItem.diskImage d)]).length,
    _ + 1, Nat.lt_succ_self _, ?_, ?_⟩
  · rw [hsplit]
    exact hg1
  · rw [hsplit]
    exact hg2
  · rw [htr]
    exact ht1
  · rw [htr]
    exact ht2

/-- Witness for c1_disk_image_before_hashlog on a one-disk Linux selection
whose uploads all succeed. -/
theorem c1_disk_image_before_hashlog_witness :
    ∃ i j, i < j
      ∧ (GetArtifacts Platform.linux true ["sda"]).get? i
          = some (ArtifactItem.diskImage "sda")
      ∧ (GetArtifacts Platform.linux true ["sda"]).get? j
          = some (ArtifactItem.hashlog "sda")
      ∧ ∃ k m, k < m
        ∧ (UploadArtifactsTrace (fun _ => true)
            (GetArtifacts Platform.linux true ["sda"])).get? k
            = some (DriverEvent.closed (ArtifactItem.diskImage "sda"))
        ∧ (UploadArtifactsTrace (fun _ => true)
            (GetArtifacts Platform.linux true ["sda"])).get? m
            = some (DriverEvent.opened (ArtifactItem.hashlog "sda")) :=
  c1_disk_image_before_hashlog Platform.linux (fun _ => true) ["sda"] "sda"
    (by simp) rfl

/-- Helper: once the stamp-uploaded flag is set, no later UploadArtifact call
writes the stamp again, and the flag stays set. -/
theorem no_stamp_write_after_flag_set (stamp : ForensicsStamp) (arts : List String) :
    ∀ st : UploaderState, st.stampUploaded = true →
      (RunUploads false stamp st arts).2.1.count UploadWrite.stampWrite = 0
      ∧ (RunUploads false stamp st arts).1.stampUploaded = true := by
  induction arts with
  | nil =>
      intro st h
      exact ⟨rfl, h⟩
  | cons a rest ih =>
      intro st h
      have hstep : UploadArtifact false stamp st a
          = (Except.ok (MakeRemotePath stamp a), st,
             [UploadWrite.artifactWrite (MakeRemotePath stamp a)]) := by
        simp [UploadArtifact, h]
      obtain ⟨ih1, ih2⟩ := ih st h
      simp [RunUploads, hstep, List.count_append, ih1, ih2]

/-- Claim C2: for every uploader instance and every non-empty sequence of
UploadArtifact calls (with the stamp write succeeding), the stamp object is
written exactly once, during the first call, before any artifact bytes; every
subsequent call skips the stamp upload because the flag is set. -/
theorem c2_stamp_uploaded_exactly_once (stamp : ForensicsStamp)
    (arts : List String) (hne : arts ≠ []) :
    (RunUploads false stamp initUploader arts).2.1.count UploadWrite.stampWrite = 1
    ∧ (RunUploads false stamp initUploader arts).2.1.head? = some UploadWrite.stampWrite
    ∧ (RunUploads false stamp initUploader arts).2.2 = [] := by
  cases arts with
  | nil => exact absurd rfl hne
  | cons a rest =>
      have hstep : UploadArtifact false stamp initUploader a
          = (Except.ok (MakeRemotePath stamp a), { stampUploaded := true },
             [UploadWrite.stampWrite, UploadWrite.artifactWrite (MakeRemotePath stamp a)]) := by
        simp [UploadArtifact, UploadStamp, initUploader]
      obtain ⟨hcount, hflag⟩ :=
        no_stamp_write_after_flag_set stamp rest { stampUploaded := true } rfl
      refine ⟨?_, ?_, ?_⟩
      · simp [RunUploads, hstep, List.count_append, List.count_cons, hcount]
      · simp [RunUploads, hstep]
      · have herr : ∀ (rest : List String) (st : UploaderState), st.stampUploaded = true →
            (RunUploads false stamp st rest).2.2 = [] := by
          intro rest
          induction rest with
          | nil => intro st h; rfl
          | cons b r ihr =>
              intro st h
              have hb : UploadArtifact false stamp st b
                  = (Except.ok (MakeRemotePath stamp b), st,
                     [UploadWrite.artifactWrite (MakeRemotePath stamp b)]) := by
                simp [UploadArtifact, h]
              simp [RunUploads, hb, ihr st h]
        simp [RunUploads, hstep, herr rest { stampUploaded := true } rfl]

/-- Witness for c2_stamp_uploaded_exactly_once: two uploads through one
uploader instance write the stamp once, first. -/
theorem c2_stamp_uploaded_exactly_once_witness :
    (RunUploads false { identifier := "U", startTime := "20171012-135619" }
        initUploader ["Base/a1", "Base/a2"]).2.1.count UploadWrite.stampWrite = 1
    ∧ (RunUploads false { identifier := "U", startTime := "20171012-135619" }
        initUploader ["Base/a1", "Base/a2"]).2.1.head? = some UploadWrite.stampWrite
    ∧ (RunUploads false { identifier := "U", startTime := "20171012-135619" }
        initUploader ["Base/a1", "Base/a2"]).2.2 = [] :=
  c2_stamp_uploaded_exactly_once
    { identifier := "U", startTime := "20171012-135619" }
    ["Base/a1", "Base/a2"] (by simp)

/-- Claim C8: evaluation of the code at the failing input. When the stamp
write fails on the first UploadArtifact call, the run is not aborted: the
driver catches the exception per artifact (auto_acquire.py lines 506-514),
records it, and still attempts every later artifact — here both queued
artifacts are attempted, two stamp failures are collected, and the loop never
stops. This contradicts the claimed fail-fast behaviour. -/
theorem c8_stamp_failure_contained_not_fail_fast :
    (RunUploads true { identifier := "U", startTime := "20171012-135619" }
        initUploader ["Base/a1", "Base/a2"]).2.2
      = [UploadFailure.stampUploadFailed, UploadFailure.stampUploadFailed]
    ∧ (RunUploads true { identifier := "U", startTime := "20171012-135619" }
        initUploader ["Base/a1", "Base/a2"]).2.1 = [] := by
  exact ⟨rfl, rfl⟩

/-- Claim C9, counterexample: the claim says the process exit status after
Main distinguishes a run with zero collected errors from one with at least
one, but Main never calls sys.exit and returns None on every path: a run
that collected an upload error exits with the same status 0 as a clean run. -/
theorem c9_counterexample :
    MainExitStatus [RunError.other "artifact upload failed"] = MainExitStatus []
    ∧ [RunError.other "artifact upload failed"] ≠ ([] : List RunError) := by
  exact ⟨rfl, by decide⟩

/-- Helper: taking step-sized chunks of data at the seek positions
`s, s + step, ..., s + (n-1)*step` and concatenating them yields the
`n * step` bytes of data starting at `s`. -/
theorem join_take_chunks {α : Type} (step : Nat) (data : List α) :
    ∀ (n s : Nat),
      ((List.range' s n step).map (fun seek => (data.drop seek).take step)).flatten
        = (data.drop s).take (n * step) := by
  intro n
  induction n with
  | zero => intro s; simp
  | succ n ih =>
      intro s
      rw [List.range'_succ, List.map_cons, List.flatten_cons, ih (s + step)]
      have hdd : data.drop (s + step) = (data.drop s).drop step := by
        rw [List.drop_drop, Nat.add_comm]
      rw [hdd, ← List.take_add]
      congr 1
      ring

/-- Claim C3, counterexample: the claim quantifies over every artifact size
S, but a 1-byte DiskArtifact split with the default 10 requested slices and
the common 4096-byte page size computes a slice size of 0, so
`range(0, size, 0)` raises an unhandled ValueError: no slice is uploaded at
all, and concatenating the uploaded slices cannot reproduce the original
byte. -/
theorem c3_counterexample :
    SplitDiskUpload 1 10 4096 = Except.error SplitFailure.rangeStepZero := by
  rfl

/-- Claim C3 (amended): for a disk artifact of size S split into N requested
slices with page size P, provided the artifact is large enough for the
computed page-aligned slice size to be non-zero (N * P ≤ S; otherwise the
splitter raises ValueError and uploads nothing), every slice starts at a
multiple of P, every slice except the final one is exactly the page-aligned
slice size long (the final slice absorbs the remainder, ending exactly at S),
and concatenating all slices in index order reproduces the original S bytes
exactly. -/
theorem c3_slices_page_aligned_roundtrip (size slices pagesize : Nat)
    (data : List Nat) (hdata : data.length = size) (hslices : 1 ≤ slices)
    (hpage : 0 < pagesize) (hbig : slices * pagesize ≤ size) :
    ∃ ranges, SplitDiskUpload size slices pagesize = Except.ok ranges
      ∧ (∀ r ∈ ranges, pagesize ∣ r.1)
      ∧ (∀ r ∈ ranges, r.2 = SliceSize size slices pagesize ∨ r.1 + r.2 = size)
      ∧ (ranges.map (fun r => (data.drop r.1).take r.2)).flatten = data := by
  have hsize_pos : 0 < size :=
    Nat.lt_of_lt_of_le (Nat.mul_pos (by omega) hpage) hbig
  have hstep_ge : pagesize ≤ SliceSize size slices pagesize := by
    have h1 : pagesize ≤ size / slices := by
      rw [Nat.le_div_iff_mul_le (by omega : 0 < slices)]
      calc pagesize * slices = slices * pagesize := Nat.mul_comm _ _
        _ ≤ size := hbig
    have h2 : 1 ≤ size / slices / pagesize := by
      rw [Nat.le_div_iff_mul_le hpage]
      simpa using h1
    calc pagesize = 1 * pagesize := (Nat.one_mul _).symm
      _ ≤ size / slices / pagesize * pagesize := Nat.mul_le_mul_right _ h2
  have hstep_pos : 0 < SliceSize size slices pagesize :=
    Nat.lt_of_lt_of_le hpage hstep_ge
  have hdvd_step : pagesize ∣ SliceSize size slices pagesize :=
    Dvd.intro_left _ rfl
  have hsplit : SplitDiskUpload size slices pagesize
      = Except.ok ((pyRangeZero size (SliceSize size slices pagesize)).map
          (fun seek =>
            (seek,
             if size < seek + SliceSize size slices pagesize then size - seek
             else SliceSize size slices pagesize))) := by
    rw [SplitDiskUpload, if_neg (by omega), if_neg (by omega)]
  -- every seek position emitted by the range is below the artifact size
  have hseek_lt : ∀ seek ∈ pyRangeZero size (SliceSize size slices pagesize),
      seek < size := by
    intro seek hseek
    obtain ⟨i, hi, hseq⟩ := List.mem_range'.1 hseek
    have hi1 : (i + 1) * SliceSize size slices pagesize
        ≤ size + SliceSize size slices pagesize - 1 :=
      (Nat.le_div_iff_mul_le hstep_pos).1 (by omega)
    have h2 : SliceSize size slices pagesize * i + SliceSize size slices pagesize
        ≤ size + SliceSize size slices pagesize - 1 := by
      calc SliceSize size slices pagesize * i + SliceSize size slices pagesize
          = (i + 1) * SliceSize size slices pagesize := by ring
        _ ≤ size + SliceSize size slices pagesize - 1 := hi1
    have h3 : seek + SliceSize size slices pagesize
        ≤ size + SliceSize size slices pagesize - 1 := by
      rw [hseq]
      simpa using h2
    omega
  refine ⟨_, hsplit, ?_, ?_, ?_⟩
  · intro r hr
    obtain ⟨seek, hseek, rfl⟩ := List.mem_map.1 hr
    obtain ⟨i, _, hseq⟩ := List.mem_range'.1 hseek
    simp only [hseq, Nat.zero_add]
    exact Dvd.dvd.mul_right hdvd_step i
  · intro r hr
    obtain ⟨seek, hseek, rfl⟩ := List.mem_map.1 hr
    by_cases hlast : size < seek + SliceSize size slices pagesize
    · right
      have := hseek_lt seek hseek
      simp only [hlast, if_pos]
      omega
    · left
      simp [hlast]
  · rw [List.map_map]
    have hext : ((pyRangeZero size (SliceSize size slices pagesize)).map
          ((fun r : Nat × Nat => (data.drop r.1).take r.2) ∘
            (fun seek =>
              (seek,
               if size < seek + SliceSize size slices pagesize then size - seek
               else SliceSize size slices pagesize))))
        = ((pyRangeZero size (SliceSize size slices pagesize)).map
            (fun seek => (data.drop seek).take (SliceSize size slices pagesize))) := by
      refine List.map_congr_left ?_
      intro seek hseek
      simp only [Function.comp_apply]
      by_cases hlast : size < seek + SliceSize size slices pagesize
      · have hlen : (data.drop seek).length = size - seek := by
          rw [List.length_drop, hdata]
        rw [if_pos hlast]
        rw [List.take_of_length_le (by omega), List.take_of_length_le (by omega)]
      · rw [if_neg hlast]
    rw [hext]
    rw [pyRangeZero, join_take_chunks]
    have hcover : size
        ≤ (size + SliceSize size slices pagesize - 1)
            / SliceSize size slices pagesize
          * SliceSize size slices pagesize := by
      have h := Nat.div_add_mod (size + SliceSize size slices pagesize - 1)
        (SliceSize size slices pagesize)
      have hm := Nat.mod_lt (size + SliceSize size slices pagesize - 1) hstep_pos
      rw [Nat.mul_comm]
      generalize hx : SliceSize size slices pagesize
          * ((size + SliceSize size slices pagesize - 1)
              / SliceSize size slices pagesize) = x at h
      omega
    rw [List.drop_zero, List.take_of_length_le (by omega)]

/-- Witness for c3_slices_page_aligned_roundtrip: a 5-byte artifact split
into 2 requested slices with page size 2 gives slices (0,2), (2,2), (4,1) —
page-aligned starts, final slice absorbing the remainder — whose
concatenation is the original data. -/
theorem c3_slices_page_aligned_roundtrip_witness :
    ∃ ranges, SplitDiskUpload 5 2 2 = Except.ok ranges
      ∧ (∀ r ∈ ranges, 2 ∣ r.1)
      ∧ (∀ r ∈ ranges, r.2 = SliceSize 5 2 2 ∨ r.1 + r.2 = 5)
      ∧ (ranges.map
          (fun r => (([10, 11, 12, 13, 14] : List Nat).drop r.1).take r.2)).flatten
        = [10, 11, 12, 13, 14] :=
  c3_slices_page_aligned_roundtrip 5 2 2 [10, 11, 12, 13, 14]
    (by decide) (by decide) (by decide) (by decide)

/-- Claim C7: evaluation of the code. The exit-0 half of the claim holds:
the stream yields exactly the captured stdout bytes and the size is their
count. The non-zero-exit half is a code bug under Python 3: instead of a
synthetic formatted error string, opening the stream raises TypeError, since
`'{0:s}'.format(self._command)` applies the "s" format spec to a list
(base.py lines 214-216). -/
theorem c7_command_output_roundtrip_and_py3_failure :
    ProcessOutputGetStream ["echo", "-n", "data"]
        { stdout := [100, 97, 116, 97], stderr := [], returncode := 0 }
      = Except.ok (4, [100, 97, 116, 97])
    ∧ ProcessOutputGetStream ["false"]
        { stdout := [], stderr := [], returncode := 1 }
      = Except.error PyError.typeError := by
  exact ⟨rfl, rfl⟩

/-- Claim C9 (amended): what distinguishes "nothing failed" from "something
failed" after Main is the final printed colored status line, not the process
exit status: the green success message is printed iff zero errors were
collected (with at least one error, a red retry or escalate message is
printed), while the exit status is 0 in every case. -/
theorem c9_final_message_distinguishes (errs : List RunError) :
    (MainFinalMessage errs = FinalMessage.successMsg ↔ errs = [])
    ∧ MainExitStatus errs = 0 := by
  refine ⟨?_, rfl⟩
  cases errs with
  | nil => simp [MainFinalMessage]
  | cons e rest =>
      simp only [MainFinalMessage, List.isEmpty_cons]
      constructor
      · intro h
        by_cases hr : (e :: rest).any IsRetryableError <;> simp [hr] at h
      · intro h
        exact absurd h (List.cons_ne_nil e rest)

/-- Witness for c9_final_message_distinguishes: a run that collected one
retryable error does not print the success message, yet exits with the same
status 0 as a clean run. -/
theorem c9_final_message_distinguishes_witness :
    (MainFinalMessage [RunError.retryable "connection broke mid-upload"]
        = FinalMessage.successMsg
      ↔ [RunError.retryable "connection broke mid-upload"] = [])
    ∧ MainExitStatus [RunError.retryable "connection broke mid-upload"] = 0 :=
  c9_final_message_distinguishes [RunError.retryable "connection broke mid-upload"]

/-- Witness for c10_nodcfldd_close_always_ioerror at a concrete (irrelevant)
process behaviour. -/
theorem c10_nodcfldd_close_always_ioerror_witness :
    ∃ h st1,
      DiskOpenStream { unreadBytes := 0, returncode := 0, stderr := "" }
          (initDiskArtifact false)
        = Except.ok (h, st1)
      ∧ st1.stream = some h
      ∧ st1.ddprocess = none
      ∧ DiskCloseStream st1 = DiskCloseOutcome.errCloseBeforeOpen :=
  c10_nodcfldd_close_always_ioerror { unreadBytes := 0, returncode := 0, stderr := "" }

end GiftStick
